import Mathlib

/-!
Shallow embedding of the dynamic-schema CRUD gateway in `src/index.js`
(PostgreSQL variant, plus the create-collection endpoint of the
document-store variant).  JavaScript strings are modelled as Lean `String`; JSON objects
(row payloads, field maps) as association lists preserving key order;
request-body fields that may be absent as `Option`.  A handler that can
reject before touching the database is modelled as a function returning
`Except (Nat × String) α`: the error carries the HTTP status and message,
and a statement reaches the database exactly on the `.ok` path.
-/

namespace OraGateway

/-- JSON scalar value carried in a row payload; only its identity matters
to the query builder, which binds every value through a placeholder. -/
inductive JValue where
  | str : String → JValue
  | num : Int → JValue
  | jbool : Bool → JValue
  | jnull : JValue
deriving DecidableEq, Repr

/-- A SQL statement as handed to `pool.query`: the statement text and the
ordered list of positionally bound parameters. -/
structure SqlStmt where
  text : String
  params : List JValue
deriving DecidableEq, Repr

/-- One row of a payload object: ordered (column, value) pairs, as JS
`Object.keys`/`Object.values` enumerate them. -/
abbrev Row := List (String × JValue)

/-- ASCII lower-casing of one character, as `String.prototype.toLowerCase`
acts on the identifier characters relevant here. -/
def jsLowerChar (c : Char) : Char :=
  if 65 ≤ c.toNat ∧ c.toNat ≤ 90 then Char.ofNat (c.toNat + 32) else c

/-- ASCII upper-casing of one character, as `String.prototype.toUpperCase`
acts on the type tokens relevant here. -/
def jsUpperChar (c : Char) : Char :=
  if 97 ≤ c.toNat ∧ c.toNat ≤ 122 then Char.ofNat (c.toNat - 32) else c

/-- Whole-string lower-casing, as in `s.toLowerCase()`. -/
def jsLower (s : String) : String := ⟨s.data.map jsLowerChar⟩

/-- Whole-string upper-casing, as in `s.toUpperCase()`. -/
def jsUpper (s : String) : String := ⟨s.data.map jsUpperChar⟩

/-- Characters kept by the sanitizer character class `[a-z0-9_]`
(`a`–`z` are code points 97–122, `0`–`9` are 48–57, `_` is 95). -/
def isSafeIdentChar (c : Char) : Bool :=
  decide ((97 ≤ c.toNat ∧ c.toNat ≤ 122) ∨ (48 ≤ c.toNat ∧ c.toNat ≤ 57) ∨ c.toNat = 95)

/-- Character-list core of the sanitizer:
`table.toLowerCase().replace(/[^a-z0-9_]/g, "")`. -/
def sanitizeList (l : List Char) : List Char :=
  (l.map jsLowerChar).filter isSafeIdentChar

/-- The Identifier Sanitizer as written at `src/index.js:106` and
`src/index.js:296`: lower-case, then delete every character outside
`[a-z0-9_]`.  The caller separately rejects when the result is empty. -/
def sanitize (s : String) : String := ⟨sanitizeList s.data⟩

/-- The type whitelist of POST `/api/create-table`
(`src/index.js:303`). -/
def allowedTypes : List String :=
  ["text", "integer", "numeric", "date", "timestamp", "uuid", "blob"]

/-- Whitelist membership test: `allowedTypes.includes(type.toLowerCase())`. -/
def typeAccepted (ty : String) : Bool := allowedTypes.contains (jsLower ty)

/-- Native column type mapping:
`normalizedType === "blob" ? "BYTEA" : type.toUpperCase()`
(`src/index.js:311`). -/
def pgTypeOf (ty : String) : String :=
  if jsLower ty = "blob" then "BYTEA" else jsUpper ty

/-- One column definition pushed by the create-table loop:
`` `${col} ${pgType}` ``. -/
def columnDef (col ty : String) : String := col ++ " " ++ pgTypeOf ty

/-- First field whose type fails the whitelist, in object order — the
column named by the 400 error at `src/index.js:307`. -/
def firstInvalidType : List (String × String) → Option String
  | [] => none
  | (col, ty) :: rest =>
      if typeAccepted ty then firstInvalidType rest else some col

/-- The validation loop of `/api/create-table` (`src/index.js:301`–`313`):
builds the column definitions in field order, or stops at the first
non-whitelisted type with the 400 error naming that column. -/
def buildColumns : List (String × String) → Except (Nat × String) (List String)
  | [] => .ok []
  | (col, ty) :: rest =>
      if typeAccepted ty then
        match buildColumns rest with
        | .ok cols => .ok (columnDef col ty :: cols)
        | .error e => .error e
      else .error (400, "Invalid type for " ++ col)

/-- System columns appended after the requested fields
(`src/index.js:317`–`319`). -/
def systemColumnDefs : List String :=
  ["created_on TIMESTAMP DEFAULT now()",
   "modified_on TIMESTAMP DEFAULT now()",
   "versionid UUID DEFAULT gen_random_uuid()"]

/-- Full CREATE TABLE column list: surrogate key first
(`columns.unshift` at `src/index.js:316`), then the requested fields in
request order, then the three system columns. -/
def fullColumnList (cols : List String) : List String :=
  "id SERIAL PRIMARY KEY" :: cols ++ systemColumnDefs

/-- Database-side state visible to the create-table endpoint: the set of
physical tables that exist, and the `txmaster` catalog rows
`(eform_name, dbname)` in insertion order. -/
structure PgState where
  tables : List String
  txmaster : List (Option String × String)
deriving DecidableEq, Repr

/-- Outcome of one `/api/create-table` request: the response, the
resulting database state, and the SQL statement texts issued, in order. -/
structure CreateTableOutcome where
  resp : Except (Nat × String) (Option String × String)
  state : PgState
  statements : List String
deriving Repr

/-- POST `/api/create-table` (`src/index.js:287`–`343`).  Validates the
request (presence, sanitized table name non-empty, all types
whitelisted) before any statement is issued; then executes
`CREATE TABLE IF NOT EXISTS` (a no-op when the physical table already
exists) and unconditionally inserts a registration row into `txmaster`.
On success the response carries the new txmaster row. -/
def createTableHandler (st : PgState) (eform : Option String)
    (table : Option String) (fields : Option (List (String × String))) :
    CreateTableOutcome :=
  match table, fields with
  | some t, some fs =>
      if t = "" then ⟨.error (400, "Table name and fields are required"), st, []⟩
      else
        let safeTable := sanitize t
        if safeTable = "" then ⟨.error (400, "Invalid table name"), st, []⟩
        else
          match buildColumns fs with
          | .error e => ⟨.error e, st, []⟩
          | .ok cols =>
              let createSql := "CREATE TABLE IF NOT EXISTS " ++ safeTable ++ " (" ++
                String.intercalate ", " (fullColumnList cols) ++ ")"
              let tables2 := if st.tables.contains safeTable then st.tables
                else st.tables ++ [safeTable]
              let insertSql := "INSERT INTO txmaster (eform_name, dbname) VALUES ($1, $2) RETURNING id, eform_name, dbname, created_on"
              ⟨.ok (eform, safeTable),
               ⟨tables2, st.txmaster ++ [(eform, safeTable)]⟩,
               [createSql, insertSql]⟩
  | _, _ => ⟨.error (400, "Table name and fields are required"), st, []⟩

/-- Positional placeholders `$1, ..., $n`:
`values.map((_, i) => "$" + (i + 1))`. -/
def placeholders (n : Nat) : List String :=
  (List.range n).map (fun i => "$" ++ toString (i + 1))

/-- POST `/api/save` (`src/index.js:347`–`366`).  JS truthiness: a missing
or empty-string `table`, or a missing `data`, is rejected 400; an empty
object `{}` for `data` is truthy and proceeds.  Emits
`INSERT INTO <table> (<cols>) VALUES (<placeholders>) RETURNING *` with
the raw table and key strings interpolated and all values bound. -/
def saveHandler (table : Option String) (data : Option Row) :
    Except (Nat × String) SqlStmt :=
  match table, data with
  | some t, some d =>
      if t = "" then .error (400, "Table and data are required")
      else
        .ok { text := "INSERT INTO " ++ t ++ " (" ++
                String.intercalate ", " (d.map (·.1)) ++ ") VALUES (" ++
                String.intercalate ", " (placeholders d.length) ++ ") RETURNING *",
              params := d.map (·.2) }
  | _, _ => .error (400, "Table and data are required")

/-- POST `/api/read` (`src/index.js:369`–`382`): executes the raw body
`query` verbatim with no parameters; only absence (or JS-falsy empty
string) is rejected. -/
def readHandler (query : Option String) : Except (Nat × String) SqlStmt :=
  match query with
  | some q => if q = "" then .error (400, "Query is required") else .ok ⟨q, []⟩
  | none => .error (400, "Query is required")

/-- The `SET col=$i` fragment of `/api/update`:
`` setKeys.map((k, i) => `${k}=$${i + 1}`).join(", ") ``. -/
def setClause (keys : List String) : String :=
  String.intercalate ", " (keys.enum.map (fun p => p.2 ++ "=$" ++ toString (p.1 + 1)))

/-- PUT `/api/update` (`src/index.js:385`–`416`).  Rejects 400 when
`table` is falsy, `data` is absent or has zero keys, or `where` is falsy;
otherwise emits `UPDATE <table> SET ... WHERE <where> RETURNING *` with
the raw table, key, and where strings interpolated and the SET values
bound positionally. -/
def updateHandler (table : Option String) (data : Option Row)
    (wh : Option String) : Except (Nat × String) SqlStmt :=
  match table, data with
  | some t, some d =>
      if t = "" ∨ d = [] then .error (400, "Table and data are required")
      else
        match wh with
        | some w =>
            if w = "" then
              .error (400, "WHERE condition is required to prevent updating all rows")
            else
              .ok { text := "UPDATE " ++ t ++ " SET " ++ setClause (d.map (·.1)) ++
                      " WHERE " ++ w ++ " RETURNING *",
                    params := d.map (·.2) }
        | none => .error (400, "WHERE condition is required to prevent updating all rows")
  | _, _ => .error (400, "Table and data are required")

/-- DELETE `/api/delete` (`src/index.js:419`–`438`): rejects 400 when
`table` or `where` is falsy; otherwise emits
`DELETE FROM <table> WHERE <where> RETURNING *` with no parameters. -/
def deleteHandler (table : Option String) (wh : Option String) :
    Except (Nat × String) SqlStmt :=
  match table, wh with
  | some t, some w =>
      if t = "" ∨ w = "" then .error (400, "Table and WHERE condition are required")
      else .ok ⟨"DELETE FROM " ++ t ++ " WHERE " ++ w ++ " RETURNING *", []⟩
  | _, _ => .error (400, "Table and WHERE condition are required")

/-- Whitespace stripped by `String.prototype.trim` (the ASCII portion
relevant to SQL text): space, tab, line feed, carriage return, vertical
tab, form feed. -/
def isJsWhitespace (c : Char) : Bool :=
  decide (c.toNat = 32 ∨ (9 ≤ c.toNat ∧ c.toNat ≤ 13))

/-- Trim, as in `s.trim()`: strip leading and trailing whitespace. -/
def jsTrim (s : String) : String :=
  ⟨((s.data.dropWhile isJsWhitespace).reverse.dropWhile isJsWhitespace).reverse⟩

/-- The read-only guard of `/menuclick/:transid`
(`src/index.js:460`): `/^select/i.test(sqlToRun.trim())` — the trimmed
statement starts with the case-insensitive token `select`. -/
def isSelectStatement (s : String) : Bool :=
  List.isPrefixOf "select".data ((jsTrim s).data.map jsLowerChar)

/-- Recognizer for CREATE TABLE statement texts, used to count how many
CREATE TABLE statements a sequence of calls issues. -/
def isCreateStatement (s : String) : Bool :=
  List.isPrefixOf "CREATE TABLE".data s.data

/-- GET `/menuclick/:transid` (`src/index.js:442`–`481`), after the
catalog lookup: `stored` is the `sql` column found for the transid, or
`none` when the lookup returned no row.  The stored statement is executed
only when it passes the SELECT-prefix guard. -/
def menuclickHandler (stored : Option String) : Except (Nat × String) SqlStmt :=
  match stored with
  | none => .error (404, "No SQL found for this menu ID")
  | some q =>
      if isSelectStatement q then .ok ⟨q, []⟩
      else .error (400, "Only SELECT queries are allowed.")

/-- Response of POST `/api/create-collection` in the document-store
variant (`src/index.js:98`–`134`), with the HTTP status it is sent
under. -/
inductive CollectionResp where
  | missingName
  | invalidName
  | alreadyExists (name : String)
  | created (name : String)
deriving DecidableEq, Repr

/-- HTTP status of each create-collection response (`res.json` without an
explicit status sends 200). -/
def CollectionResp.status : CollectionResp → Nat
  | .missingName => 400
  | .invalidName => 400
  | .alreadyExists _ => 200
  | .created _ => 201

/-- Outcome of one `/api/create-collection` request: response, resulting
list of collections, and how many `createCollection` calls were issued. -/
structure CreateCollectionOutcome where
  resp : CollectionResp
  state : List String
  creates : Nat
deriving DecidableEq, Repr

/-- POST `/api/create-collection` (`src/index.js:98`–`134`): sanitizes
the requested name, rejects when missing or sanitized-empty, answers 200
without creating when the collection is already listed, and otherwise
creates it and answers 201. -/
def createCollectionHandler (st : List String) (table : Option String) :
    CreateCollectionOutcome :=
  match table with
  | none => ⟨.missingName, st, 0⟩
  | some t =>
      if t = "" then ⟨.missingName, st, 0⟩
      else
        let safe := sanitize t
        if safe = "" then ⟨.invalidName, st, 0⟩
        else if st.contains safe then ⟨.alreadyExists safe, st, 0⟩
        else ⟨.created safe, st ++ [safe], 1⟩

/-! ### Sanitizer lemmas -/

theorem jsLowerChar_of_safe (c : Char) (h : isSafeIdentChar c = true) :
    jsLowerChar c = c := by
  have h2 : (97 ≤ c.toNat ∧ c.toNat ≤ 122) ∨ (48 ≤ c.toNat ∧ c.toNat ≤ 57) ∨
      c.toNat = 95 := by
    simpa [isSafeIdentChar] using h
  unfold jsLowerChar
  rw [if_neg]
  omega

theorem sanitizeList_of_all_safe (l : List Char)
    (h : ∀ c ∈ l, isSafeIdentChar c = true) : sanitizeList l = l := by
  induction l with
  | nil => rfl
  | cons a t ih =>
      have ha : isSafeIdentChar a = true := h a (List.mem_cons_self a t)
      have ht : ∀ c ∈ t, isSafeIdentChar c = true :=
        fun c hc => h c (List.mem_cons_of_mem a hc)
      have ih2 := ih ht
      simp only [sanitizeList] at ih2 ⊢
      simp only [List.map_cons, List.filter_cons]
      rw [jsLowerChar_of_safe a ha]
      simp [ha, ih2]

theorem sanitizeList_idem (l : List Char) :
    sanitizeList (sanitizeList l) = sanitizeList l := by
  apply sanitizeList_of_all_safe
  intro c hc
  simp only [sanitizeList] at hc
  exact (List.mem_filter.mp hc).2

/-- C9: identifier sanitization is idempotent — `sanitize (sanitize x) =
sanitize x` for every string — and every character of the output lies in
`[a-z0-9_]`, so the output consists only of (lower-case) alphanumerics
and underscore, or is empty. -/
theorem sanitize_idem_and_charset (x : String) :
    sanitize (sanitize x) = sanitize x ∧
      (sanitize x).data.all isSafeIdentChar = true := by
  constructor
  · show (⟨sanitizeList (sanitizeList x.data)⟩ : String) = ⟨sanitizeList x.data⟩
    rw [sanitizeList_idem]
  · rw [List.all_eq_true]
    intro c hc
    simp only [sanitize, sanitizeList] at hc
    exact (List.mem_filter.mp hc).2

example : sanitize "A-B" = "ab" := by decide
example : sanitize "Order 66!" = "order66" := by decide
example : sanitize "--" = "" := by decide

/-! ### Type-whitelist theorems (C6) -/

/-- C6 counterexample: the whitelist does not accept the literal type
tokens `unique-identifier` and `binary` named by the spec; the seven
accepted tokens spell those two types `uuid` and `blob`. -/
theorem typeWhitelist_spelling_counterexample :
    typeAccepted "unique-identifier" = false ∧ typeAccepted "binary" = false ∧
    typeAccepted "uuid" = true ∧ typeAccepted "blob" = true := by decide

/-- C6 (amended): the Type Whitelist accepts exactly the seven type
strings `text, integer, numeric, date, timestamp, uuid, blob`, matched
case-insensitively by lower-casing the requested type string; and the
binary type (any casing of `blob`) maps to the native `BYTEA` column
type. -/
theorem typeWhitelist_amended :
    (∀ ty, typeAccepted ty = true ↔ jsLower ty ∈ allowedTypes) ∧
    allowedTypes = ["text", "integer", "numeric", "date", "timestamp", "uuid", "blob"] ∧
    (∀ ty, jsLower ty = "blob" → pgTypeOf ty = "BYTEA") := by
  refine ⟨fun ty => ?_, rfl, fun ty h => ?_⟩
  · rw [typeAccepted, List.elem_iff]
  · rw [pgTypeOf, if_pos h]

/-- Witness for C6 (amended): the upper-cased spelling `BLOB` is accepted
by lower-casing and maps to `BYTEA`. -/
theorem typeWhitelist_amended_witness : pgTypeOf "BLOB" = "BYTEA" :=
  typeWhitelist_amended.2.2 "BLOB" (by decide)

/-! ### Column-list construction (C8) -/

theorem buildColumns_ok_of_all (fs : List (String × String))
    (h : ∀ p ∈ fs, typeAccepted p.2 = true) :
    buildColumns fs = .ok (fs.map (fun p => columnDef p.1 p.2)) := by
  induction fs with
  | nil => rfl
  | cons a t ih =>
      have ha : typeAccepted a.2 = true := h a (List.mem_cons_self a t)
      have ht : ∀ p ∈ t, typeAccepted p.2 = true :=
        fun p hp => h p (List.mem_cons_of_mem a hp)
      cases a with
      | mk col ty =>
          simp only [buildColumns, ha, if_true, ih ht, List.map_cons]

/-- C8: for a valid create-table request (present table whose sanitized
name is non-empty, all field types whitelisted) on a table that does not
yet exist, the column list of the single generated CREATE TABLE is:
the surrogate `id SERIAL PRIMARY KEY` column first, then the requested
fields in request order, then exactly the three system columns
`created_on`/`modified_on` timestamps defaulting to `now()` and a
`versionid` with server-generated `gen_random_uuid()` default, in that
order — and the table is then created. -/
theorem createTable_generated_columns (st : PgState) (e : Option String)
    (t : String) (fs : List (String × String))
    (ht : t ≠ "") (hs : sanitize t ≠ "")
    (hnew : st.tables.contains (sanitize t) = false)
    (hf : ∀ p ∈ fs, typeAccepted p.2 = true) :
    (createTableHandler st e (some t) (some fs)).statements =
      ["CREATE TABLE IF NOT EXISTS " ++ sanitize t ++ " (" ++
        String.intercalate ", "
          ("id SERIAL PRIMARY KEY" ::
            fs.map (fun p => columnDef p.1 p.2) ++
            ["created_on TIMESTAMP DEFAULT now()",
             "modified_on TIMESTAMP DEFAULT now()",
             "versionid UUID DEFAULT gen_random_uuid()"]) ++ ")",
       "INSERT INTO txmaster (eform_name, dbname) VALUES ($1, $2) RETURNING id, eform_name, dbname, created_on"] ∧
    (createTableHandler st e (some t) (some fs)).state.tables =
      st.tables ++ [sanitize t] := by
  simp only [createTableHandler, if_neg ht, if_neg hs, buildColumns_ok_of_all fs hf,
    hnew, Bool.false_eq_true, if_false, fullColumnList, systemColumnDefs]
  refine ⟨?_, ?_⟩ <;> first
    | rfl
    | trivial

/-- Witness for C8: the `orders` example of the spec generates exactly the
column list `id, customer, amount, created_on, modified_on, versionid`. -/
theorem createTable_generated_columns_witness :
    (createTableHandler ⟨[], []⟩ (some "ordersform") (some "orders")
        (some [("customer", "text"), ("amount", "numeric")])).statements.head? =
      some "CREATE TABLE IF NOT EXISTS orders (id SERIAL PRIMARY KEY, customer TEXT, amount NUMERIC, created_on TIMESTAMP DEFAULT now(), modified_on TIMESTAMP DEFAULT now(), versionid UUID DEFAULT gen_random_uuid())" := by
  have h := createTable_generated_columns ⟨[], []⟩ (some "ordersform") "orders"
    [("customer", "text"), ("amount", "numeric")]
    (by decide) (by decide) (by decide) (by decide)
  rw [h.1]
  rfl

/-! ### All-or-nothing type validation (C4) -/

theorem buildColumns_error_of_firstInvalid (fs : List (String × String))
    (c : String) (hc : firstInvalidType fs = some c) :
    buildColumns fs = .error (400, "Invalid type for " ++ c) := by
  induction fs with
  | nil => simp [firstInvalidType] at hc
  | cons a t ih =>
      cases a with
      | mk col ty =>
          by_cases ha : typeAccepted ty = true
          · simp only [firstInvalidType, ha, if_true] at hc
            simp only [buildColumns, ha, if_true, ih hc]
          · simp only [firstInvalidType, ha, if_false] at hc
            cases hc
            simp [buildColumns, ha]

theorem firstInvalidType_isSome_iff (fs : List (String × String)) :
    (firstInvalidType fs).isSome = true ↔
      fs.any (fun p => !typeAccepted p.2) = true := by
  induction fs with
  | nil => simp [firstInvalidType]
  | cons a t ih =>
      cases a with
      | mk col ty =>
          by_cases ha : typeAccepted ty = true
          · simp [firstInvalidType, ha, ih]
          · simp [firstInvalidType, ha]

/-- C4: whenever a well-formed create-table request (table present,
sanitized name non-empty) carries a fields map with at least one type
outside the whitelist, the handler issues zero SQL statements (so zero
DDL and zero catalog writes), leaves the database state unchanged, and
answers 400 with an error naming the first offending column. -/
theorem createTable_invalid_type_aborts (st : PgState) (e : Option String)
    (t : String) (fs : List (String × String))
    (ht : t ≠ "") (hs : sanitize t ≠ "")
    (hbad : fs.any (fun p => !typeAccepted p.2) = true) :
    ∃ c, firstInvalidType fs = some c ∧
      createTableHandler st e (some t) (some fs) =
        ⟨.error (400, "Invalid type for " ++ c), st, []⟩ := by
  have hsome : (firstInvalidType fs).isSome = true :=
    (firstInvalidType_isSome_iff fs).mpr hbad
  obtain ⟨c, hc⟩ := Option.isSome_iff_exists.mp hsome
  refine ⟨c, hc, ?_⟩
  simp only [createTableHandler, if_neg ht, if_neg hs,
    buildColumns_error_of_firstInvalid fs c hc]

/-- Witness for C4: a request mixing a whitelisted `text` with a
non-whitelisted `varchar` is rejected 400 naming column `b`, with no
statements issued and the state untouched. -/
theorem createTable_invalid_type_aborts_witness :
    createTableHandler ⟨[], []⟩ none (some "Orders")
        (some [("a", "text"), ("b", "varchar")]) =
      ⟨.error (400, "Invalid type for b"), ⟨[], []⟩, []⟩ := by
  obtain ⟨c, hc, hout⟩ := createTable_invalid_type_aborts ⟨[], []⟩ none "Orders"
    [("a", "text"), ("b", "varchar")] (by decide) (by decide) (by decide)
  have hcb : c = "b" := by
    have : firstInvalidType [("a", "text"), ("b", "varchar")] = some "b" := by decide
    rw [this] at hc
    exact (Option.some_injective _ hc).symm
  subst hcb
  rw [hout]
  rfl

/-! ### Mandatory filter for update and delete (C5) -/

/-- C5: for every table, every row payload, and an absent or JS-falsy
empty `where`, PUT `/api/update` and DELETE `/api/delete` answer a 400
error and put no statement on the `.ok` path (no SQL is emitted); when
table and payload are themselves well-formed, the update 400 carries
exactly the mandatory-WHERE message, and the delete 400 always carries
its mandatory-WHERE message. -/
theorem updateDelete_require_filter (t : String) (d : Row) (wh : Option String)
    (hw : wh = none ∨ wh = some "") :
    (∃ m, updateHandler (some t) (some d) wh = .error (400, m)) ∧
    (t ≠ "" → d ≠ [] →
      updateHandler (some t) (some d) wh =
        .error (400, "WHERE condition is required to prevent updating all rows")) ∧
    deleteHandler (some t) wh = .error (400, "Table and WHERE condition are required") := by
  have hup : ∀ hmain : ¬(t = "" ∨ d = []),
      updateHandler (some t) (some d) wh =
        .error (400, "WHERE condition is required to prevent updating all rows") := by
    intro hmain
    rcases hw with h | h <;> subst h <;>
      simp [updateHandler, hmain]
  refine ⟨?_, fun ht hd => hup (by simp [ht, hd]), ?_⟩
  · by_cases hmain : t = "" ∨ d = []
    · exact ⟨"Table and data are required", by
        simp only [updateHandler, if_pos hmain]⟩
    · exact ⟨"WHERE condition is required to prevent updating all rows", hup hmain⟩
  · rcases hw with h | h <;> subst h
    · rfl
    · simp [deleteHandler]

/-- Witness for C5: a concrete update and delete with a missing `where`
are both rejected 400 with the mandatory-WHERE messages. -/
theorem updateDelete_require_filter_witness :
    updateHandler (some "customers") (some [("name", JValue.str "a")]) none =
      .error (400, "WHERE condition is required to prevent updating all rows") ∧
    deleteHandler (some "customers") none =
      .error (400, "Table and WHERE condition are required") := by
  have h := updateDelete_require_filter "customers" [("name", JValue.str "a")]
    none (Or.inl rfl)
  exact ⟨h.2.1 (by decide) (by simp), h.2.2⟩

/-! ### Read paths and the SELECT-only guard (C3) -/

/-- C3 counterexample: POST `/api/read` executes a raw statement whose
trimmed text does not begin with the token SELECT — the body query
`DELETE FROM t` is passed to the pool verbatim instead of being rejected
with a 400 error. -/
theorem readPath_nonselect_executed_counterexample :
    readHandler (some "DELETE FROM t") = .ok ⟨"DELETE FROM t", []⟩ ∧
    isSelectStatement "DELETE FROM t" = false := ⟨rfl, rfl⟩

/-- C3 (amended): only the stored-statement path GET `/menuclick/:transid`
enforces the SELECT-prefix guard — a stored statement failing the guard
is rejected 400 with no execution, and every statement that path executes
passes the guard — while POST `/api/read` executes any non-empty raw
query verbatim with no check at all. -/
theorem selectGuard_amended :
    (∀ q, isSelectStatement q = false →
      menuclickHandler (some q) = .error (400, "Only SELECT queries are allowed.")) ∧
    (∀ q stmt, menuclickHandler (some q) = .ok stmt →
      isSelectStatement stmt.text = true) ∧
    (∀ q, q ≠ "" → readHandler (some q) = .ok ⟨q, []⟩) := by
  refine ⟨fun q hq => ?_, fun q stmt h => ?_, fun q hq => ?_⟩
  · simp [menuclickHandler, hq]
  · by_cases hg : isSelectStatement q = true
    · simp only [menuclickHandler, hg, if_true] at h
      cases h
      exact hg
    · simp only [menuclickHandler, hg, if_false] at h
      exact absurd h (by simp)
  · simp [readHandler, hq]

/-- Witness for C3 (amended): a stored `DROP TABLE` statement is rejected
by the menuclick guard, and `/api/read` executes a concrete `select 1`. -/
theorem selectGuard_amended_witness :
    menuclickHandler (some "DROP TABLE menus") =
      .error (400, "Only SELECT queries are allowed.") ∧
    readHandler (some "select 1") = .ok ⟨"select 1", []⟩ :=
  ⟨selectGuard_amended.1 "DROP TABLE menus" (by decide),
   selectGuard_amended.2.2 "select 1" (by decide)⟩

/-! ### Insert path and the empty payload (C7) -/

/-- C7 counterexample: a present-but-empty row payload is NOT rejected by
POST `/api/save` — an empty JS object is truthy, so the handler emits the
(malformed) statement `INSERT INTO t () VALUES () RETURNING *` instead of
rejecting with an empty-payload error and no SQL. -/
theorem emptyPayload_counterexample :
    saveHandler (some "t") (some ([] : Row)) =
      .ok ⟨"INSERT INTO t () VALUES () RETURNING *", []⟩ := rfl

/-- C7 (amended): POST `/api/save` rejects 400 only when `table` or
`data` is absent (or `table` is the JS-falsy empty string); a
present-but-empty payload is not rejected and yields
`INSERT INTO <table> () VALUES () RETURNING *`; and for every payload the
emitted statement is `INSERT INTO <table> (<cols>) VALUES
(<placeholders>) RETURNING *` with exactly one positional placeholder per
value and all values bound as parameters in order. -/
theorem saveHandler_amended (t : String) (d : Row) (ht : t ≠ "") :
    saveHandler (some t) none = .error (400, "Table and data are required") ∧
    saveHandler none (some d) = .error (400, "Table and data are required") ∧
    (placeholders d.length).length = d.length ∧
    saveHandler (some t) (some d) =
      .ok ⟨"INSERT INTO " ++ t ++ " (" ++
        String.intercalate ", " (d.map (·.1)) ++ ") VALUES (" ++
        String.intercalate ", " (placeholders d.length) ++ ") RETURNING *",
        d.map (·.2)⟩ := by
  refine ⟨rfl, rfl, by simp [placeholders], ?_⟩
  simp [saveHandler, ht]

/-- Witness for C7 (amended): a two-entry payload produces the INSERT
with placeholders `$1, $2` and binds the two values in order. -/
theorem saveHandler_amended_witness :
    saveHandler (some "t") (some [("a", JValue.num 1), ("b", JValue.num 2)]) =
      .ok ⟨"INSERT INTO t (a, b) VALUES ($1, $2) RETURNING *",
           [JValue.num 1, JValue.num 2]⟩ := by
  have h := saveHandler_amended "t" [("a", JValue.num 1), ("b", JValue.num 2)]
    (by decide)
  rw [h.2.2.2]
  rfl

/-! ### Identifier sanitization on the DML paths (C1) -/

/-- C1 counterexample: POST `/api/save` and PUT `/api/update` interpolate
client-supplied identifiers into the statement text without passing them
through the sanitizer: the table name `A-B` and column name `x;y` (whose
sanitized forms are `ab` and `xy`) reach the SQL text verbatim, as does a
raw `where` string. -/
theorem identifier_sanitization_counterexample :
    saveHandler (some "A-B") (some [("x;y", JValue.jnull)]) =
      .ok ⟨"INSERT INTO A-B (x;y) VALUES ($1) RETURNING *", [JValue.jnull]⟩ ∧
    sanitize "A-B" = "ab" ∧ sanitize "x;y" = "xy" ∧
    updateHandler (some "A-B") (some [("x;y", JValue.jnull)])
        (some "1=1; DROP TABLE users") =
      .ok ⟨"UPDATE A-B SET x;y=$1 WHERE 1=1; DROP TABLE users RETURNING *",
           [JValue.jnull]⟩ := by
  exact ⟨rfl, by decide, by decide, rfl⟩

/-- C1 (amended): neither the insert nor the update operation applies the
Identifier Sanitizer: for every request the raw table string, every raw
column key of the payload, and (for update) the raw where string are
interpolated verbatim into the statement text, with only the values
parameter-bound. -/
theorem identifier_interpolation_amended (t w : String) (d : Row)
    (ht : t ≠ "") (hd : d ≠ []) (hw : w ≠ "") :
    saveHandler (some t) (some d) =
      .ok ⟨"INSERT INTO " ++ t ++ " (" ++
        String.intercalate ", " (d.map (·.1)) ++ ") VALUES (" ++
        String.intercalate ", " (placeholders d.length) ++ ") RETURNING *",
        d.map (·.2)⟩ ∧
    updateHandler (some t) (some d) (some w) =
      .ok ⟨"UPDATE " ++ t ++ " SET " ++ setClause (d.map (·.1)) ++
        " WHERE " ++ w ++ " RETURNING *", d.map (·.2)⟩ := by
  constructor
  · simp [saveHandler, ht]
  · simp [updateHandler, ht, hd, hw]

/-- Witness for C1 (amended): concrete insert and update statements carry
the raw identifiers and where string. -/
theorem identifier_interpolation_amended_witness :
    updateHandler (some "customers") (some [("name", JValue.str "a")])
        (some "id=1") =
      .ok ⟨"UPDATE customers SET name=$1 WHERE id=1 RETURNING *",
           [JValue.str "a"]⟩ := by
  have h := identifier_interpolation_amended "customers" "id=1"
    [("name", JValue.str "a")] (by decide) (by simp) (by decide)
  rw [h.2]
  rfl

/-! ### Repeated create-table calls and the catalog (C2) -/

theorem isPrefixOfCharsIff (l₁ l₂ : List Char) :
    l₁.isPrefixOf l₂ = true ↔ l₁ <+: l₂ :=
  List.isPrefixOf_iff_prefix

theorem isCreateStatement_of_create (a b c d : String) :
    isCreateStatement ("CREATE TABLE IF NOT EXISTS " ++ a ++ b ++ c ++ d) = true := by
  have h1 : "CREATE TABLE".data <+: "CREATE TABLE IF NOT EXISTS ".data :=
    (isPrefixOfCharsIff _ _).mp (by decide)
  unfold isCreateStatement
  rw [isPrefixOfCharsIff, String.data_append, String.data_append,
    String.data_append, String.data_append, List.append_assoc,
    List.append_assoc, List.append_assoc]
  exact h1.trans (List.prefix_append _ _)

theorem createTable_ok_outcome (st : PgState) (e : Option String)
    (t : String) (fs : List (String × String))
    (ht : t ≠ "") (hs : sanitize t ≠ "")
    (hf : ∀ p ∈ fs, typeAccepted p.2 = true) :
    createTableHandler st e (some t) (some fs) =
      ⟨.ok (e, sanitize t),
       ⟨if st.tables.contains (sanitize t) then st.tables
        else st.tables ++ [sanitize t],
        st.txmaster ++ [(e, sanitize t)]⟩,
       ["CREATE TABLE IF NOT EXISTS " ++ sanitize t ++ " (" ++
          String.intercalate ", "
            (fullColumnList (fs.map (fun p => columnDef p.1 p.2))) ++ ")",
        "INSERT INTO txmaster (eform_name, dbname) VALUES ($1, $2) RETURNING id, eform_name, dbname, created_on"]⟩ := by
  simp only [createTableHandler, if_neg ht, if_neg hs, buildColumns_ok_of_all fs hf]

/-- C2 counterexample: two identical valid create-table calls from the
empty database issue two CREATE TABLE statements (one per call), and the
second call leaves the catalog with TWO txmaster rows for the physical
table `orders` — not the same catalog state as after one call, and not
at most one occurrence per physical table name. -/
theorem createTable_not_idempotent_counterexample :
    (createTableHandler (createTableHandler ⟨[], []⟩ (some "e") (some "orders")
        (some [("customer", "text")])).state (some "e") (some "orders")
        (some [("customer", "text")])).state.txmaster =
      [(some "e", "orders"), (some "e", "orders")] ∧
    (createTableHandler ⟨[], []⟩ (some "e") (some "orders")
        (some [("customer", "text")])).state.txmaster =
      [(some "e", "orders")] ∧
    ((createTableHandler ⟨[], []⟩ (some "e") (some "orders")
        (some [("customer", "text")])).statements ++
      (createTableHandler (createTableHandler ⟨[], []⟩ (some "e") (some "orders")
        (some [("customer", "text")])).state (some "e") (some "orders")
        (some [("customer", "text")])).statements).countP isCreateStatement = 2 ∧
    (createTableHandler (createTableHandler ⟨[], []⟩ (some "e") (some "orders")
        (some [("customer", "text")])).state (some "e") (some "orders")
        (some [("customer", "text")])).state ≠
      (createTableHandler ⟨[], []⟩ (some "e") (some "orders")
        (some [("customer", "text")])).state := by decide

/-- C2 (amended): for identical valid create/extend calls, the physical
side is idempotent — the `CREATE TABLE IF NOT EXISTS` of the second call
leaves the set of physical tables unchanged — but each call issues its
own CREATE TABLE statement (exactly one per call) and unconditionally
appends a fresh registration row to `txmaster`, so the catalog after the
second call holds one more `(eform, dbname)` row than after the first and
a physical table name can appear many times in the catalog. -/
theorem createTable_repeat_amended (st : PgState) (e : Option String)
    (t : String) (fs : List (String × String))
    (ht : t ≠ "") (hs : sanitize t ≠ "")
    (hf : ∀ p ∈ fs, typeAccepted p.2 = true) :
    ((createTableHandler (createTableHandler st e (some t) (some fs)).state
        e (some t) (some fs)).state.tables =
      (createTableHandler st e (some t) (some fs)).state.tables) ∧
    ((createTableHandler (createTableHandler st e (some t) (some fs)).state
        e (some t) (some fs)).state.txmaster =
      (createTableHandler st e (some t) (some fs)).state.txmaster ++
        [(e, sanitize t)]) ∧
    ((createTableHandler st e (some t) (some fs)).statements.countP
        isCreateStatement = 1) ∧
    ((createTableHandler (createTableHandler st e (some t) (some fs)).state
        e (some t) (some fs)).statements.countP isCreateStatement = 1) := by
  have hins : isCreateStatement "INSERT INTO txmaster (eform_name, dbname) VALUES ($1, $2) RETURNING id, eform_name, dbname, created_on" = false := by
    decide
  rw [createTable_ok_outcome st e t fs ht hs hf]
  rw [createTable_ok_outcome _ e t fs ht hs hf]
  refine ⟨?_, rfl, ?_, ?_⟩
  · by_cases hm : sanitize t ∈ st.tables <;> simp [hm]
  · simp [List.countP_cons, isCreateStatement_of_create, hins]
  · simp [List.countP_cons, isCreateStatement_of_create, hins]

/-- Witness for C2 (amended): for the concrete `orders` call from the
empty database, the second call keeps the physical table list `[orders]`
and appends a second catalog row. -/
theorem createTable_repeat_amended_witness :
    (createTableHandler (createTableHandler ⟨[], []⟩ (some "e") (some "orders")
        (some [("customer", "text")])).state (some "e") (some "orders")
        (some [("customer", "text")])).state.tables =
      (createTableHandler ⟨[], []⟩ (some "e") (some "orders")
        (some [("customer", "text")])).state.tables ∧
    (createTableHandler (createTableHandler ⟨[], []⟩ (some "e") (some "orders")
        (some [("customer", "text")])).state (some "e") (some "orders")
        (some [("customer", "text")])).state.txmaster =
      (createTableHandler ⟨[], []⟩ (some "e") (some "orders")
        (some [("customer", "text")])).state.txmaster ++
        [(some "e", sanitize "orders")] := by
  have h := createTable_repeat_amended ⟨[], []⟩ (some "e") "orders"
    [("customer", "text")] (by decide) (by decide) (by decide)
  exact ⟨h.1, h.2.1⟩

/-! ### Create-collection idempotence (C10) -/

/-- C10: for a valid collection name, POST `/api/create-collection`
answers 200 "already exists" with no creation call and an unchanged
collection list when the collection is present, and creates it with a 201
only when absent; across two successive identical calls the collection is
created exactly once (zero times if it already existed) and the second
call never changes the state. -/
theorem createCollection_idempotent (st : List String) (t : String)
    (ht : t ≠ "") (hs : sanitize t ≠ "") :
    (st.contains (sanitize t) = true →
      createCollectionHandler st (some t) =
        ⟨.alreadyExists (sanitize t), st, 0⟩) ∧
    (st.contains (sanitize t) = false →
      createCollectionHandler st (some t) =
        ⟨.created (sanitize t), st ++ [sanitize t], 1⟩) ∧
    CollectionResp.status (.alreadyExists (sanitize t)) = 200 ∧
    CollectionResp.status (.created (sanitize t)) = 201 ∧
    ((createCollectionHandler st (some t)).creates +
        (createCollectionHandler (createCollectionHandler st (some t)).state
          (some t)).creates = if st.contains (sanitize t) = true then 0 else 1) ∧
    ((createCollectionHandler (createCollectionHandler st (some t)).state
        (some t)).state = (createCollectionHandler st (some t)).state) := by
  by_cases hm : sanitize t ∈ st
  · have hc : st.contains (sanitize t) = true := List.elem_iff.mpr hm
    refine ⟨fun _ => ?_, fun hcf => absurd hm (by simpa using hcf), rfl, rfl, ?_, ?_⟩ <;>
      simp [createCollectionHandler, ht, hs, hm]
  · have hc : st.contains (sanitize t) = false := by simpa using hm
    refine ⟨fun hct => absurd (by simpa using hct : sanitize t ∈ st) hm,
      fun _ => ?_, rfl, rfl, ?_, ?_⟩ <;>
      simp [createCollectionHandler, ht, hs, hm]

/-- Witness for C10: creating `Logs!` (sanitized to `logs`) from the
empty store answers 201 and creates once; the immediate repeat answers
200 "already exists", creates nothing, and leaves the state unchanged. -/
theorem createCollection_idempotent_witness :
    createCollectionHandler [] (some "Logs!") = ⟨.created "logs", ["logs"], 1⟩ ∧
    createCollectionHandler ["logs"] (some "Logs!") =
      ⟨.alreadyExists "logs", ["logs"], 0⟩ := by
  have h1 := (createCollection_idempotent [] "Logs!" (by decide) (by decide)).2.1
    (by decide)
  have h2 := (createCollection_idempotent ["logs"] "Logs!" (by decide)
    (by decide)).1 (by decide)
  rw [h1, h2]
  exact ⟨rfl, rfl⟩

end OraGateway
